import Mathlib

/-!
Shallow embedding of the reminder-extraction and LLM-resilience core of the
Mail Management multi-agent system (backend/utils/gemini_client.py,
backend/agents/reminder_setter.py, backend/agents/chatbot.py,
backend/agents/reply_generator.py), together with theorems settling the
specified properties.

Strings are modelled as `List Char` internally; the Python regular-expression
operations used by the source (`re.search`, `re.sub`, `re.split`) are
embedded for the concrete patterns that occur in the source
(`ACTION:\s*(.+)`, `DATE:\s*(.+)`, `ACTION:?|DATE:?`, `DATE:?`, `[\n\r]`).
The hosted generation endpoint is an oracle indexed by attempt number, and
wall-clock timestamps and the formatted tomorrow-date are passed in as
parameters (the system clock is an external effect).
-/

/-- Python character class `\s` (ASCII range), also used by `str.strip()`. -/
def pyIsSpace (c : Char) : Bool :=
  c == ' ' || c == '\t' || c == '\n' || c == '\r' || c == '\x0b' || c == '\x0c'

/-- Python `str.strip()`: drop leading and trailing whitespace. -/
def pyStrip (s : List Char) : List Char :=
  ((s.dropWhile pyIsSpace).reverse.dropWhile pyIsSpace).reverse

/-- `str.strip()` at the `String` level. -/
def pyStripStr (s : String) : String :=
  String.mk (pyStrip s.toList)

/-- Case-sensitive test that `l` starts with the first argument. -/
def startsWith : List Char → List Char → Bool
  | [], _ => true
  | _ :: _, [] => false
  | l :: ls, c :: cs => l == c && startsWith ls cs

/-- Python substring containment (`sub in s`). -/
def containsSub (sub : List Char) : List Char → Bool
  | [] => sub.isEmpty
  | c :: cs => startsWith sub (c :: cs) || containsSub sub cs

/-- Case-insensitive (`re.IGNORECASE`, ASCII) literal match: if `label`
matches a prefix of `s` up to case, return the remainder of `s`. -/
def stripLabelCI : List Char → List Char → Option (List Char)
  | [], s => some s
  | _ :: _, [] => none
  | l :: ls, c :: cs => if c.toLower == l.toLower then stripLabelCI ls cs else none

theorem stripLabelCI_length {l : List Char} :
    ∀ {s r : List Char}, stripLabelCI l s = some r → r.length + l.length = s.length := by
  induction l with
  | nil =>
    intro s r h
    simp only [stripLabelCI, Option.some.injEq] at h
    simp [h]
  | cons a as ih =>
    intro s r h
    cases s with
    | nil => simp [stripLabelCI] at h
    | cons c cs =>
      simp only [stripLabelCI] at h
      split at h
      · have := ih h
        simp only [List.length_cons]
        omega
      · exact absurd h (by simp)

/-- The regex atom `.` (no DOTALL): every character except a newline.
`takeLine s` is what the greedy `(.+)` captures from the start of `s`. -/
def takeLine (s : List Char) : List Char :=
  s.takeWhile (fun c => !(c == '\n'))

/-- Backtracking step for `\s*(.+)` when everything after the maximal
whitespace run is empty: the rightmost whitespace character that is not a
newline starts the capture. -/
def lastNonNewlineSuffix : List Char → Option (List Char)
  | [] => none
  | c :: cs =>
    match lastNonNewlineSuffix cs with
    | some g => some g
    | none => if c == '\n' then none else some (takeLine (c :: cs))

/-- Anchored match of the pattern `label\s*(.+)` (with `re.IGNORECASE`)
at the start of `s`, returning the text captured by `(.+)`. -/
def reMatchAt (label : List Char) (s : List Char) : Option (List Char) :=
  match stripLabelCI label s with
  | none => none
  | some rest =>
    let ws := rest.takeWhile pyIsSpace
    let r := rest.drop ws.length
    match r with
    | _ :: _ => some (takeLine r)
    | [] => lastNonNewlineSuffix ws

/-- `re.search(label + r'\s*(.+)', s, re.IGNORECASE).group(1)`:
scan left to right for the first position where the whole pattern matches. -/
def reSearch (label : List Char) : List Char → Option (List Char)
  | [] => none
  | c :: cs =>
    match reMatchAt label (c :: cs) with
    | some g => some g
    | none => reSearch label cs

def actionLabel : List Char := "ACTION:".toList
def dateLabel : List Char := "DATE:".toList
def noActionToken : List Char := "NO_ACTION".toList

/-- Fuel-indexed scan for `re.sub(r'ACTION:?|DATE:?', '', s,
flags=re.IGNORECASE)`: delete every occurrence of `ACTION` / `DATE`, each
with an optional trailing colon (the alternation tries `ACTION:` before
`ACTION`, then `DATE:`, then `DATE`). Every step consumes at least one
character, so fuel `s.length` never runs out. -/
def reSubActionGo : Nat → List Char → List Char
  | _, [] => []
  | 0, s => s
  | fuel + 1, c :: cs =>
    match stripLabelCI ("ACTION:".toList) (c :: cs) with
    | some r => reSubActionGo fuel r
    | none =>
      match stripLabelCI ("ACTION".toList) (c :: cs) with
      | some r => reSubActionGo fuel r
      | none =>
        match stripLabelCI ("DATE:".toList) (c :: cs) with
        | some r => reSubActionGo fuel r
        | none =>
          match stripLabelCI ("DATE".toList) (c :: cs) with
          | some r => reSubActionGo fuel r
          | none => c :: reSubActionGo fuel cs

/-- `re.sub(r'ACTION:?|DATE:?', '', s, flags=re.IGNORECASE)`. -/
def reSubAction (s : List Char) : List Char :=
  reSubActionGo s.length s

/-- Fuel-indexed scan for `re.sub(r'DATE:?', '', s, flags=re.IGNORECASE)`. -/
def reSubDateGo : Nat → List Char → List Char
  | _, [] => []
  | 0, s => s
  | fuel + 1, c :: cs =>
    match stripLabelCI ("DATE:".toList) (c :: cs) with
    | some r => reSubDateGo fuel r
    | none =>
      match stripLabelCI ("DATE".toList) (c :: cs) with
      | some r => reSubDateGo fuel r
      | none => c :: reSubDateGo fuel cs

/-- `re.sub(r'DATE:?', '', s, flags=re.IGNORECASE)`. -/
def reSubDate (s : List Char) : List Char :=
  reSubDateGo s.length s

/-! ## TextGenerationClient (backend/utils/gemini_client.py) -/

/-- One call to the hosted endpoint either yields generated text or raises
an error carrying a message (`GeminiClient.generate_text`, the `try` body). -/
inductive ApiOutcome where
  | success (text : String)
  | failure (err : String)
deriving DecidableEq

/-- Quota detection from gemini_client.py line 53:
`"429" in error_str or "quota" in error_str.lower()`. -/
def isQuotaError (e : String) : Bool :=
  containsSub ("429".toList) e.toList ||
    containsSub ("quota".toList) (e.toList.map Char.toLower)

/-- The distinguished user-facing quota-exhaustion message
(gemini_client.py line 60). -/
def quotaExceededMsg : String :=
  "AI quota exceeded (429). Upgrade to paid tier or wait 24h. Tip: Use fewer emails to reduce calls."

/-- The message returned if the retry loop were ever exhausted without
returning (gemini_client.py line 65; unreachable for positive retry counts). -/
def maxRetriesMsg : String :=
  "Max retries exceeded due to quota issues. Please check your API limits."

/-- Observable outcome of `generate_text`: the returned string, the number of
endpoint calls made, and the sequence of `time.sleep` durations (seconds),
in order. The Python function catches every exception internally, so the
embedding is total. -/
structure GenResult where
  text : String
  attempts : Nat
  sleeps : List Nat
deriving DecidableEq

/-- The body of `for attempt in range(max_retries)` in
`GeminiClient.generate_text` (gemini_client.py lines 29-65). `endpoint n`
is the outcome of the n-th `self.model.generate_content` call; `fuel` is
the number of loop iterations remaining (`max_retries - attempt`). -/
def generate_text_go (endpoint : Nat → ApiOutcome) (max_retries : Nat) :
    Nat → Nat → GenResult
  | _, 0 => ⟨maxRetriesMsg, 0, []⟩
  | attempt, fuel + 1 =>
    match endpoint attempt with
    | .success t => ⟨pyStripStr t, 1, []⟩
    | .failure e =>
      if isQuotaError e then
        if attempt < max_retries - 1 then
          let wait := 2 ^ attempt * 30
          let rest := generate_text_go endpoint max_retries (attempt + 1) fuel
          ⟨rest.text, rest.attempts + 1, wait :: rest.sleeps⟩
        else ⟨quotaExceededMsg, 1, []⟩
      else ⟨"AI service unavailable: " ++ e, 1, []⟩

/-- `GeminiClient.generate_text` with its default `max_retries=3`. -/
def generate_text (endpoint : Nat → ApiOutcome) : GenResult :=
  generate_text_go endpoint 3 0 3

/-- If every attempt raises a quota-marked error, `generate_text` makes
exactly 3 calls, sleeps 30s and then 60s between them, and returns the
distinguished quota message. Shared backbone for the claims about the
retry loop. -/
theorem generate_text_quota_eq (endpoint : Nat → ApiOutcome)
    (h : ∀ n, ∃ e, endpoint n = .failure e ∧ isQuotaError e = true) :
    generate_text endpoint = ⟨quotaExceededMsg, 3, [30, 60]⟩ := by
  obtain ⟨e0, h0, q0⟩ := h 0
  obtain ⟨e1, h1, q1⟩ := h 1
  obtain ⟨e2, h2, q2⟩ := h 2
  simp [generate_text, generate_text_go, h0, h1, h2, q0, q1, q2]

/-- C1, counterexample: with an endpoint whose every attempt raises a
quota-marked error, the sleeps performed are 30s and 60s only — not the
claimed 30s, 60s and 120s (three attempts leave room for just two
inter-attempt sleeps; the 120s sleep is never executed). -/
theorem generate_text_sleeps_cex :
    ¬ (generate_text (fun _ => ApiOutcome.failure "429")).sleeps = [30, 60, 120] := by
  decide

/-- C1 (amended): if every attempt raises an error whose text marks a
quota/rate-limit condition, `generate_text` makes exactly 3 attempts,
sleeps between consecutive attempts with delays of 30s then 60s
(exponential backoff with base 30s; two sleeps separate the three
attempts), lets no exception escape (the embedding is total), and returns
the distinguished quota-exceeded user-facing message after the last
attempt. -/
theorem generate_text_quota_retries (endpoint : Nat → ApiOutcome)
    (h : ∀ n, ∃ e, endpoint n = .failure e ∧ isQuotaError e = true) :
    (generate_text endpoint).text = quotaExceededMsg ∧
    (generate_text endpoint).attempts = 3 ∧
    (generate_text endpoint).sleeps = [30, 60] := by
  rw [generate_text_quota_eq endpoint h]
  exact ⟨rfl, rfl, rfl⟩

/-- C1, witness: the hypotheses of `generate_text_quota_retries` hold for
the concrete endpoint that raises "429" on every attempt. -/
theorem generate_text_quota_retries_witness :
    (generate_text (fun _ => ApiOutcome.failure "429")).text = quotaExceededMsg ∧
    (generate_text (fun _ => ApiOutcome.failure "429")).attempts = 3 ∧
    (generate_text (fun _ => ApiOutcome.failure "429")).sleeps = [30, 60] :=
  generate_text_quota_retries (fun _ => ApiOutcome.failure "429")
    (fun _ => ⟨"429", rfl, by decide⟩)

/-! ## ReminderExtractor (backend/agents/reminder_setter.py, extract_reminder_info) -/

/-- The structured result of a successful extraction
(the dict built at reminder_setter.py lines 68-72). -/
structure ReminderInfo where
  action : String
  date : String
  email_subject : String
deriving DecidableEq

/-- `re.split(r'[\n\r]', action)[0]`: the text before the first CR or LF. -/
def takeFirstLine (s : List Char) : List Char :=
  s.takeWhile (fun c => !(c == '\n' || c == '\r'))

/-- The cleanup applied to the captured `ACTION:` group
(reminder_setter.py lines 54-57): strip, cut at the first line break, delete
residual `ACTION`/`DATE` label fragments, strip again. -/
def extractedAction (g : List Char) : List Char :=
  pyStrip (reSubAction (takeFirstLine (pyStrip g)))

/-- The resolved due-date string before keyword normalization
(reminder_setter.py lines 59-62): the literal `TOMORROW` when no `DATE:`
line matched, otherwise the captured group stripped and with `DATE` label
fragments deleted. -/
def resolveDueRaw (response : List Char) : List Char :=
  match reSearch dateLabel response with
  | none => "TOMORROW".toList
  | some dg => pyStrip (reSubDate (pyStrip dg))

/-- The keyword test of reminder_setter.py line 64:
`not date or date.upper() in ["ASAP", "SOON"]`. -/
def dueIsPlaceholder (date : List Char) : Bool :=
  date.isEmpty || date.map Char.toUpper == "ASAP".toList ||
    date.map Char.toUpper == "SOON".toList

/-- Keyword normalization (reminder_setter.py lines 64-66): an empty, `ASAP`
or `SOON` due string becomes tomorrow's `YYYY-MM-DD` date. `tomorrow` stands
for `(datetime.datetime.now() + timedelta(days=1)).strftime('%Y-%m-%d')`,
passed in because the system clock is an external effect. -/
def normalizeDue (date : List Char) (tomorrow : String) : List Char :=
  if dueIsPlaceholder date then tomorrow.toList else date

/-- `ReminderSetterAgent.extract_reminder_info` (reminder_setter.py lines
44-79) as a function of the text produced by `generate_text` (`genText`; the
source computes `self.gemini.generate_text(prompt, max_tokens=150).strip()`),
the email subject, and the formatted tomorrow-date. The surrounding
`try/except` returns `None` on any error, so the embedding is total. -/
def extract_reminder_info (genText subject tomorrow : String) : Option ReminderInfo :=
  let response := pyStrip genText.toList
  if containsSub noActionToken (response.map Char.toUpper) then none
  else
    match reSearch actionLabel response with
    | none => none
    | some g =>
      some { action := String.mk (extractedAction g)
             date := String.mk (normalizeDue (resolveDueRaw response) tomorrow)
             email_subject := subject }

/-- C2: if the (stripped) generated response contains the token `NO_ACTION`
anywhere, case-insensitively — i.e. its upper-cased form contains
`NO_ACTION` — then `extract_reminder_info` returns the no-reminder result
`none`, even when the response also contains a well-formed `ACTION:` line:
the check precedes and takes priority over action parsing. -/
theorem extract_no_action_priority (genText subject tomorrow : String)
    (h : containsSub noActionToken ((pyStrip genText.toList).map Char.toUpper) = true) :
    extract_reminder_info genText subject tomorrow = none := by
  have h' : containsSub noActionToken ((pyStrip genText.data).map Char.toUpper) = true := h
  simp [extract_reminder_info, h']

/-- C2, witness: a response containing both `NO_ACTION` and a well-formed
`ACTION:` line yields no reminder. -/
theorem extract_no_action_priority_witness :
    extract_reminder_info "NO_ACTION\nACTION: Reply to client" "S" "2025-09-30" = none :=
  extract_no_action_priority "NO_ACTION\nACTION: Reply to client" "S" "2025-09-30"
    (by decide)

/-- The Bool keyword test agrees with its propositional reading. -/
theorem dueIsPlaceholder_iff (d : List Char) :
    dueIsPlaceholder d = true ↔
      d = [] ∨ d.map Char.toUpper = "ASAP".toList ∨ d.map Char.toUpper = "SOON".toList := by
  simp [dueIsPlaceholder, List.isEmpty_iff, Bool.or_eq_true, beq_iff_eq, or_assoc]

/-- C7: when an `ACTION:` line is found (and `NO_ACTION` is absent, so parsing
reaches the action branch), the produced due date is the keyword-normalized
resolved due string, where (a) the resolved due string is the literal
`TOMORROW` when no `DATE:` line is present, and (b) normalization replaces an
empty, `ASAP` or `SOON` (case-insensitive) resolved string with tomorrow's
`YYYY-MM-DD` calendar date and passes every other date string through
unchanged. -/
theorem extract_date_resolution (genText subject tomorrow : String) (g : List Char)
    (hno : containsSub noActionToken ((pyStrip genText.toList).map Char.toUpper) = false)
    (hact : reSearch actionLabel (pyStrip genText.toList) = some g) :
    (extract_reminder_info genText subject tomorrow
      = some { action := String.mk (extractedAction g)
               date := String.mk (normalizeDue (resolveDueRaw (pyStrip genText.toList)) tomorrow)
               email_subject := subject })
  ∧ (reSearch dateLabel (pyStrip genText.toList) = none →
       resolveDueRaw (pyStrip genText.toList) = "TOMORROW".toList)
  ∧ (∀ d : List Char,
       normalizeDue d tomorrow =
         if d = [] ∨ d.map Char.toUpper = "ASAP".toList ∨ d.map Char.toUpper = "SOON".toList
         then tomorrow.toList else d) := by
  refine ⟨?_, ?_, ?_⟩
  · have hno' : containsSub noActionToken ((pyStrip genText.data).map Char.toUpper) = false := hno
    have hact' : reSearch actionLabel (pyStrip genText.data) = some g := hact
    simp [extract_reminder_info, hno', hact']
  · intro hd
    have hd' : reSearch dateLabel (pyStrip genText.data) = none := hd
    simp [resolveDueRaw, hd']
  · intro d
    simp only [normalizeDue, dueIsPlaceholder_iff]

/-- C7, witness: for the response `"ACTION: Reply to client\nDATE: ASAP"`
the resolved due is the keyword `ASAP`, so the produced due date equals the
supplied tomorrow-date, never the literal `ASAP`. -/
theorem extract_date_resolution_witness :
    extract_reminder_info "ACTION: Reply to client\nDATE: ASAP" "S" "2025-09-30"
      = some { action := "Reply to client", date := "2025-09-30", email_subject := "S" } := by
  have h := (extract_date_resolution "ACTION: Reply to client\nDATE: ASAP" "S" "2025-09-30"
    ("Reply to client".toList) (by decide) (by decide)).1
  exact h.trans (by decide)

/-- C4, counterexample: `generate_text` surfaces non-quota failures as the
string `"AI service unavailable: " ++ err`, which flows into the extraction
parser; an underlying error text containing an `ACTION:` marker is therefore
mis-parsed into a reminder instead of being treated as "no reminder". -/
theorem extract_failure_cex :
    ¬ (extract_reminder_info
        (generate_text (fun _ => ApiOutcome.failure "boom ACTION: pay rent")).text
        "Subject" "2025-09-30" = none) := by
  decide

/-- C4 (amended): extraction never surfaces a client failure as an error
(the embedding is total), and it returns the no-reminder result `none` for
the quota-exceeded outcome; for other failure outcomes it returns `none`
provided the surfaced message contains no case-insensitive `ACTION:` match
(a service-unavailable error text carrying an `ACTION:` line is instead
mis-parsed into a reminder). -/
theorem extract_failure_swallowed (endpoint : Nat → ApiOutcome) (subject tomorrow : String) :
    ((∀ n, ∃ e, endpoint n = ApiOutcome.failure e ∧ isQuotaError e = true) →
       extract_reminder_info (generate_text endpoint).text subject tomorrow = none)
  ∧ (∀ genText : String,
       reSearch actionLabel (pyStrip genText.toList) = none →
       extract_reminder_info genText subject tomorrow = none) := by
  constructor
  · intro h
    rw [generate_text_quota_eq endpoint h]
    show extract_reminder_info quotaExceededMsg subject tomorrow = none
    have hno : containsSub noActionToken
        ((pyStrip quotaExceededMsg.data).map Char.toUpper) = false := by decide
    have hact : reSearch actionLabel (pyStrip quotaExceededMsg.data) = none := by decide
    simp [extract_reminder_info, hno, hact]
  · intro genText hact
    have hact' : reSearch actionLabel (pyStrip genText.data) = none := hact
    by_cases hno : containsSub noActionToken ((pyStrip genText.data).map Char.toUpper) = true
    · simp [extract_reminder_info, hno]
    · simp only [Bool.not_eq_true] at hno
      simp [extract_reminder_info, hno, hact']

/-- C4, witness: the amended hypotheses are satisfiable — an endpoint whose
every attempt is quota-marked yields no reminder, and so does a generation
result with no `ACTION:` marker. -/
theorem extract_failure_swallowed_witness :
    extract_reminder_info (generate_text (fun _ => ApiOutcome.failure "quota hit")).text
      "S" "2025-09-30" = none ∧
    extract_reminder_info "hello there" "S" "2025-09-30" = none := by
  constructor
  · exact (extract_failure_swallowed (fun _ => ApiOutcome.failure "quota hit") "S" "2025-09-30").1
      (fun _ => ⟨"quota hit", rfl, by decide⟩)
  · exact (extract_failure_swallowed (fun _ => ApiOutcome.failure "quota hit") "S" "2025-09-30").2
      "hello there" (by decide)

/-! ## ReminderStore (backend/agents/reminder_setter.py, set_reminder /
mark_completed / clear_completed) -/

/-- A reminder record as built at reminder_setter.py lines 90-97, in the
active counter mode (`use_uuid = False`, the constructor default). The
`completed_at` key is absent until `mark_completed` adds it, modelled with
`Option`. -/
structure Reminder where
  id : Nat
  email_subject : String
  action : String
  date : String
  created_at : String
  completed : Bool
  completed_at : Option String
deriving DecidableEq

/-- The mutable state of `ReminderSetterAgent` relevant to the store:
`self.reminders = []` and `self.reminder_id_counter = 1` from `__init__`. -/
structure ReminderStore where
  reminders : List Reminder
  reminder_id_counter : Nat
deriving DecidableEq

/-- The store as constructed by `ReminderSetterAgent.__init__`. -/
def initialStore : ReminderStore :=
  { reminders := [], reminder_id_counter := 1 }

/-- A truthy `custom_reminder` dict, embedded by its `.get('action', ...)` /
`.get('date', ...)` lookup behavior (`none` models an absent key). A falsy
(`None` or empty) `custom_reminder` is modelled by passing `none` to
`set_reminder`. -/
structure CustomReminder where
  action : Option String
  date : Option String
deriving DecidableEq

/-- `ReminderSetterAgent.set_reminder` (reminder_setter.py lines 81-112):
`custom` is the `custom_reminder` argument and `extracted` the value of
`self.extract_reminder_info(email_content)` (consulted only when `custom`
is falsy); `email_subject` is `email_content.get('subject', 'No subject')`
and `created_at` the formatted current time. Returns the created reminder
(or `none`) together with the updated store. -/
def set_reminder (st : ReminderStore) (email_subject : String)
    (custom : Option CustomReminder) (extracted : Option ReminderInfo)
    (created_at : String) : Option Reminder × ReminderStore :=
  let info : Option CustomReminder :=
    match custom with
    | some c => some c
    | none =>
      match extracted with
      | some r => some { action := some r.action, date := some r.date }
      | none => none
  match info with
  | none => (none, st)
  | some ri =>
    let reminder : Reminder :=
      { id := st.reminder_id_counter
        email_subject := email_subject
        action := ri.action.getD "Follow up on email"
        date := ri.date.getD "TOMORROW"
        created_at := created_at
        completed := false
        completed_at := none }
    (some reminder,
     { reminders := st.reminders ++ [reminder]
       reminder_id_counter := st.reminder_id_counter + 1 })

/-- The loop of `ReminderSetterAgent.mark_completed` (reminder_setter.py
lines 120-133): mutate the first reminder whose id matches and return
`True`; return `False` when none matches. `now` is the formatted current
time stamped into `completed_at`. -/
def markCompletedList (rid : Nat) (now : String) : List Reminder → Bool × List Reminder
  | [] => (false, [])
  | r :: rs =>
    if r.id = rid then
      (true, { r with completed := true, completed_at := some now } :: rs)
    else
      let p := markCompletedList rid now rs
      (p.1, r :: p.2)

/-- `ReminderSetterAgent.mark_completed`. -/
def mark_completed (st : ReminderStore) (rid : Nat) (now : String) :
    Bool × ReminderStore :=
  let p := markCompletedList rid now st.reminders
  (p.1, { st with reminders := p.2 })

/-- `ReminderSetterAgent.clear_completed` (reminder_setter.py lines 135-145):
keep exactly the reminders not marked completed and return how many were
removed. -/
def clear_completed (st : ReminderStore) : Nat × ReminderStore :=
  let kept := st.reminders.filter (fun r => !r.completed)
  (st.reminders.length - kept.length, { st with reminders := kept })

/-- One user-triggered store operation within a process lifetime. -/
inductive StoreOp where
  | create (email_subject : String) (custom : Option CustomReminder)
      (extracted : Option ReminderInfo) (created_at : String)
  | markCompleted (rid : Nat) (now : String)
  | clearCompleted

/-- Apply one operation, returning the new store and the ids assigned by the
operation (empty or a singleton). -/
def runOp (st : ReminderStore) : StoreOp → ReminderStore × List Nat
  | .create subj custom extracted ts =>
    let p := set_reminder st subj custom extracted ts
    (p.2, match p.1 with | some r => [r.id] | none => [])
  | .markCompleted rid now => ((mark_completed st rid now).2, [])
  | .clearCompleted => ((clear_completed st).2, [])

/-- All ids assigned while running a sequence of operations, in order. -/
def assignedIds (st : ReminderStore) : List StoreOp → List Nat
  | [] => []
  | op :: ops => (runOp st op).2 ++ assignedIds (runOp st op).1 ops

theorem runOp_counter_mono (st : ReminderStore) (op : StoreOp) :
    st.reminder_id_counter ≤ (runOp st op).1.reminder_id_counter := by
  cases op with
  | create subj custom extracted ts =>
    cases custom with
    | some c => simp [runOp, set_reminder]
    | none =>
      cases extracted with
      | some r => simp [runOp, set_reminder]
      | none => simp [runOp, set_reminder]
  | markCompleted rid now => simp [runOp, mark_completed]
  | clearCompleted => simp [runOp, clear_completed]

theorem runOp_ids_bounds (st : ReminderStore) (op : StoreOp) :
    ∀ i ∈ (runOp st op).2,
      st.reminder_id_counter ≤ i ∧ i < (runOp st op).1.reminder_id_counter := by
  cases op with
  | create subj custom extracted ts =>
    cases custom with
    | some c => simp [runOp, set_reminder]
    | none =>
      cases extracted with
      | some r => simp [runOp, set_reminder]
      | none => simp [runOp, set_reminder]
  | markCompleted rid now => simp [runOp]
  | clearCompleted => simp [runOp]

theorem runOp_ids_short (st : ReminderStore) (op : StoreOp) :
    List.Pairwise (· < ·) (runOp st op).2 := by
  cases op with
  | create subj custom extracted ts =>
    cases custom with
    | some c => simp [runOp, set_reminder]
    | none =>
      cases extracted with
      | some r => simp [runOp, set_reminder]
      | none => simp [runOp, set_reminder]
  | markCompleted rid now => simp [runOp]
  | clearCompleted => simp [runOp]

theorem assignedIds_ge (ops : List StoreOp) :
    ∀ (st : ReminderStore), ∀ i ∈ assignedIds st ops, st.reminder_id_counter ≤ i := by
  induction ops with
  | nil => simp [assignedIds]
  | cons op ops ih =>
    intro st i hi
    rcases List.mem_append.1 hi with h | h
    · exact (runOp_ids_bounds st op i h).1
    · exact le_trans (runOp_counter_mono st op) (ih _ i h)

theorem assignedIds_pairwise (ops : List StoreOp) :
    ∀ st : ReminderStore, List.Pairwise (· < ·) (assignedIds st ops) := by
  induction ops with
  | nil => intro st; simp [assignedIds]
  | cons op ops ih =>
    intro st
    show List.Pairwise (· < ·) ((runOp st op).2 ++ assignedIds (runOp st op).1 ops)
    refine List.pairwise_append.2 ⟨runOp_ids_short st op, ih _, ?_⟩
    intro a ha b hb
    have h1 := (runOp_ids_bounds st op a ha).2
    have h2 := assignedIds_ge ops _ b hb
    omega

/-- C3: over every sequence of store operations (creations via
`set_reminder`, `mark_completed` calls, and `clear_completed` pruning,
interleaved arbitrarily) starting from the freshly constructed store, the
ids assigned to created reminders are strictly increasing in creation
order, and hence no id is ever assigned twice within the process lifetime —
in particular not after `clear_completed` has removed entries. -/
theorem reminder_ids_strictly_increasing (ops : List StoreOp) :
    List.Pairwise (· < ·) (assignedIds initialStore ops) ∧
    (assignedIds initialStore ops).Nodup :=
  ⟨assignedIds_pairwise ops initialStore,
   List.Pairwise.imp Nat.ne_of_lt (assignedIds_pairwise ops initialStore)⟩

/-- C5, counterexample: `set_reminder` performs no validation of the action
text, so a custom reminder whose `action` entry is the empty string is
stored with an empty action; likewise, a generated response whose captured
action text consists only of label fragments (here `"ACTION: ACTION:"`, whose
capture collapses to `""` after cleanup) extracts to an empty action that
`set_reminder` would store. -/
theorem reminder_empty_action_cex :
    ((set_reminder initialStore "S" (some { action := some "", date := none })
        none "T").2.reminders.map (fun r => r.action)) = [""] ∧
    extract_reminder_info "ACTION: ACTION:" "S" "2025-09-30"
      = some { action := "", date := "TOMORROW", email_subject := "S" } :=
  ⟨by decide, by decide⟩

/-- C5 (amended): whenever extraction yields no action (returns `none`) and
no custom reminder is supplied, no reminder record is created at all —
`set_reminder` returns `none` and the store is completely unchanged. The
non-empty-action invariant itself does not hold: neither path validates the
action text, so an empty-string action can be stored (see the
counterexample). -/
theorem set_reminder_no_info (st : ReminderStore) (email_subject created_at : String) :
    set_reminder st email_subject none none created_at = (none, st) := rfl

theorem length_filter_not_add (l : List Reminder) :
    (l.filter (fun r => r.completed)).length
      + (l.filter (fun r => !r.completed)).length = l.length := by
  induction l with
  | nil => rfl
  | cons r rs ih =>
    cases hr : r.completed <;> simp [List.filter_cons, hr] <;> omega

/-- C6: `clear_completed` keeps exactly the reminders whose completed flag is
false at call time (as the very same records, in the same relative order —
the kept list is the completed-filtered list and a sublist of the original),
returns exactly the number of completed reminders removed, and leaves the id
counter unchanged. -/
theorem clear_completed_spec (st : ReminderStore) :
    (clear_completed st).2.reminders = st.reminders.filter (fun r => !r.completed) ∧
    (clear_completed st).1 = (st.reminders.filter (fun r => r.completed)).length ∧
    List.Sublist (clear_completed st).2.reminders st.reminders ∧
    (clear_completed st).2.reminder_id_counter = st.reminder_id_counter := by
  refine ⟨rfl, ?_, ?_, rfl⟩
  · show st.reminders.length - (st.reminders.filter (fun r => !r.completed)).length
      = (st.reminders.filter (fun r => r.completed)).length
    have h := length_filter_not_add st.reminders
    omega
  · show List.Sublist (st.reminders.filter (fun r => !r.completed)) st.reminders
    exact List.filter_sublist _

theorem markCompletedList_not_found (rid : Nat) (now : String) :
    ∀ l : List Reminder, (∀ r ∈ l, r.id ≠ rid) → markCompletedList rid now l = (false, l) := by
  intro l
  induction l with
  | nil => intro _; rfl
  | cons r rs ih =>
    intro h
    have hr : r.id ≠ rid := h r (by simp)
    simp [markCompletedList, hr, ih (fun x hx => h x (by simp [hx]))]

/-- C8: `mark_completed` called with an id that matches no reminder in the
store returns `false` and leaves the store completely unchanged — no
reminder mutated, none added or removed. -/
theorem mark_completed_unknown_id (st : ReminderStore) (rid : Nat) (now : String)
    (h : ∀ r ∈ st.reminders, r.id ≠ rid) :
    mark_completed st rid now = (false, st) := by
  simp [mark_completed, markCompletedList_not_found rid now st.reminders h]

/-- C8, witness: a store holding one reminder with id 1, queried for id 5. -/
theorem mark_completed_unknown_id_witness :
    mark_completed (set_reminder initialStore "S"
        (some { action := some "A", date := none }) none "T").2 5 "now"
      = (false, (set_reminder initialStore "S"
          (some { action := some "A", date := none }) none "T").2) :=
  mark_completed_unknown_id _ 5 "now" (by decide)

/-! ## ConversationMemory (backend/agents/chatbot.py, general_chat;
backend/agents/reply_generator.py, chat_with_email) -/

/-- One stored exchange pair, as the dicts appended to `self.chat_history`
(chatbot.py lines 50-55) and `self.chat_histories[email_index]`
(reply_generator.py lines 97-102). -/
structure ChatEntry where
  user : String
  assistant : String
  timestamp : String
deriving DecidableEq

/-- The append-then-truncate step shared by both chat agents:
`history.append(entry)` followed by `if len(history) > cap:
history = history[-cap:]`. -/
def chatHistoryAppend (cap : Nat) (hist : List ChatEntry) (e : ChatEntry) : List ChatEntry :=
  if cap < (hist ++ [e]).length then
    (hist ++ [e]).drop ((hist ++ [e]).length - cap)
  else hist ++ [e]

/-- The global-chat history update of `ChatbotAgent.general_chat`
(chatbot.py lines 57-59): cap of 10 entries. -/
def general_chat_history_update (hist : List ChatEntry) (e : ChatEntry) : List ChatEntry :=
  chatHistoryAppend 10 hist e

/-- The per-email history update of `ReplyGeneratorAgent.chat_with_email`
(reply_generator.py lines 104-106): cap of 5 entries. -/
def chat_with_email_history_update (hist : List ChatEntry) (e : ChatEntry) : List ChatEntry :=
  chatHistoryAppend 5 hist e

theorem chatHistoryAppend_length (cap : Nat) (hist : List ChatEntry) (e : ChatEntry)
    (h : hist.length ≤ cap) : (chatHistoryAppend cap hist e).length ≤ cap := by
  unfold chatHistoryAppend
  split
  · simp only [List.length_drop]
    omega
  · next hc => omega

theorem foldl_chatHistoryAppend (cap : Nat) (es : List ChatEntry) :
    ∀ hist : List ChatEntry, hist.length ≤ cap →
      List.foldl (chatHistoryAppend cap) hist es
        = (hist ++ es).drop ((hist ++ es).length - cap) := by
  induction es with
  | nil =>
    intro hist h
    simp [Nat.sub_eq_zero_of_le h]
  | cons e es ih =>
    intro hist h
    rw [List.foldl_cons, ih _ (chatHistoryAppend_length cap hist e h)]
    unfold chatHistoryAppend
    by_cases hc : cap < (hist ++ [e]).length
    · rw [if_pos hc]
      have hlen : hist.length = cap := by
        simp only [List.length_append, List.length_cons, List.length_nil] at hc
        omega
      have hd1 : (hist ++ [e]).length - cap = 1 := by
        simp [hlen]
      rw [hd1]
      have h0 : 1 - (hist ++ [e]).length = 0 := by
        simp only [List.length_append, List.length_cons, List.length_nil]
        omega
      have hsplit : ((hist ++ [e]) ++ es).drop 1 = (hist ++ [e]).drop 1 ++ es := by
        rw [List.drop_append_eq_append_drop, h0, List.drop_zero]
      rw [← hsplit, List.drop_drop]
      have hY : (hist ++ [e]) ++ es = hist ++ e :: es := by simp
      rw [hY]
      congr 1
      simp only [List.length_drop, List.length_append, List.length_cons, List.length_nil, hlen]
      omega
    · rw [if_neg hc]
      have hY : (hist ++ [e]) ++ es = hist ++ e :: es := by simp
      rw [hY]

/-- C9: starting from an empty history, appending any sequence of exchange
pairs keeps exactly the most recent pairs and silently drops the oldest,
preserving insertion order: the global chat history retains the 10 most
recent pairs (so appending 12 leaves exactly the last 10) and each per-email
chat history retains the 5 most recent pairs. -/
theorem conversation_history_cap (es : List ChatEntry) :
    List.foldl general_chat_history_update [] es = es.drop (es.length - 10) ∧
    List.foldl chat_with_email_history_update [] es = es.drop (es.length - 5) := by
  constructor
  · have h := foldl_chatHistoryAppend 10 es [] (by simp)
    simpa using h
  · have h := foldl_chatHistoryAppend 5 es [] (by simp)
    simpa using h

/-- The `context` argument of `ChatbotAgent.general_chat`: either a plain
string (including the `""` default) or a stats dict, embedded by the values
of its `total_emails` / `unread_count` lookups with their `.get` defaults
already applied. -/
inductive ChatContext where
  | str (s : String)
  | stats (total_emails unread_count : Int)
deriving DecidableEq

/-- `context.get('total_emails', 0) if isinstance(context, dict) else 0`. -/
def ctxTotalEmails : ChatContext → Int
  | .stats t _ => t
  | .str _ => 0

/-- `context.get('unread_count', 0) if isinstance(context, dict) else 0`. -/
def ctxUnreadCount : ChatContext → Int
  | .stats _ u => u
  | .str _ => 0

/-- `key in message.lower()` for a lowercase literal `key`. -/
def lowerContains (message : String) (key : String) : Bool :=
  containsSub key.toList (message.toList.map Char.toLower)

/-- The role/content list returned to the frontend (chatbot.py lines 62-66):
two entries per stored exchange pair, in order. -/
def renderHistory : List ChatEntry → List (String × String)
  | [] => []
  | e :: es => ("user", e.user) :: ("assistant", e.assistant) :: renderHistory es

/-- Observable outcome of `ChatbotAgent.general_chat`: the returned response
string and role/content list, the value of `self.chat_history` after the
call, and whether the generation endpoint was called. -/
structure GeneralChatResult where
  response : String
  history : List (String × String)
  chat_history : List ChatEntry
  called_api : Bool
deriving DecidableEq

/-- `ChatbotAgent.general_chat` (chatbot.py lines 9-68) as a function of the
incoming `self.chat_history`, the message, the context, the text the
generation endpoint would return (`apiText`, used only on the non-fallback
path), and the current timestamp. -/
def general_chat (chat_history : List ChatEntry) (message : String)
    (context : ChatContext) (apiText : String) (timestamp : String) : GeneralChatResult :=
  if lowerContains message "unread" || lowerContains message "how many emails" then
    let total := ctxTotalEmails context
    let unread := ctxUnreadCount context
    let read := total - unread
    let base := "Based on your recent emails: You have " ++ toString unread ++
      " unread and " ++ toString read ++ " read out of " ++ toString total ++
      " total. Tip: Prioritize unread by category (e.g., Work/Important)."
    let fallback :=
      if lowerContains message "tip" || lowerContains message "organizing" then
        base ++ "\n\nOrganizing Tips: 1) Use labels/folders for categories. 2) Set auto-rules for newsletters. 3) Unsubscribe from spam sources. 4) Schedule \x27inbox zero\x27 time daily."
      else base
    { response := fallback
      history := [("user", message), ("assistant", fallback)]
      chat_history := chat_history
      called_api := false }
  else if lowerContains message "tip" || lowerContains message "organize" then
    let fallback := "Email Organizing Tips: 1) Categorize immediately (Work/Personal). 2) Use search for quick finds. 3) Archive/delete weekly. 4) Set reminders for action items. 5) Limit inbox to 50 emails max."
    { response := fallback
      history := [("user", message), ("assistant", fallback)]
      chat_history := chat_history
      called_api := false }
  else
    let response := pyStripStr apiText
    let newHist := general_chat_history_update chat_history
      { user := message, assistant := response, timestamp := timestamp }
    { response := response
      history := renderHistory newHist
      chat_history := newHist
      called_api := true }

/-- C10: when the lowercased message contains `unread`, `how many emails`,
`tip`, or `organize`, `general_chat` answers from a locally computed
fallback: the generation endpoint is not called and the persistent global
chat history is left unchanged (the fallback exchange is returned to the
caller but never appended to `self.chat_history`). -/
theorem general_chat_fallback_frame (hist : List ChatEntry) (message : String)
    (context : ChatContext) (apiText timestamp : String)
    (h : lowerContains message "unread" = true
       ∨ lowerContains message "how many emails" = true
       ∨ lowerContains message "tip" = true
       ∨ lowerContains message "organize" = true) :
    (general_chat hist message context apiText timestamp).called_api = false ∧
    (general_chat hist message context apiText timestamp).chat_history = hist := by
  by_cases h1 : (lowerContains message "unread" || lowerContains message "how many emails") = true
  · simp [general_chat, h1]
  · by_cases h2 : (lowerContains message "tip" || lowerContains message "organize") = true
    · simp only [Bool.not_eq_true, Bool.or_eq_false_iff] at h1
      simp [general_chat, h1.1, h1.2, h2]
    · exfalso
      simp only [Bool.not_eq_true, Bool.or_eq_false_iff] at h1 h2
      rcases h with h | h | h | h <;> simp_all

/-- C10, witness: a message containing `tip` takes the fallback path. -/
theorem general_chat_fallback_frame_witness :
    (general_chat [] "any tip please" (ChatContext.str "") "api" "ts").called_api = false ∧
    (general_chat [] "any tip please" (ChatContext.str "") "api" "ts").chat_history = [] :=
  general_chat_fallback_frame [] "any tip please" (ChatContext.str "") "api" "ts"
    (Or.inr (Or.inr (Or.inl (by decide))))
